import Mathlib

/-!
Shallow embedding of `photobuchauswahltool/__main__.py`.

The program has two cores:
* filesystem helpers `is_file_in_directory`, `copy_file_to_directory`,
  `delete_file_in_directory`, which we model over an explicit filesystem
  (an association list from paths to nodes), with Python exceptions
  modelled by `Except`;
* the pager `CurrentImagesProvider` with methods `skim`, `get` and
  `progress`, modelled with explicit state passing.
-/

deriving instance DecidableEq for Except

/-- A filesystem path, as its list of components (`pathlib.Path` parts). -/
abbrev FsPath := List String

/-- The name of a path: its last component (`pathlib.Path.name`). -/
def pathName (p : FsPath) : String := p.getLastD ""

/-- A filesystem node: a regular file with contents, or a directory. -/
inductive Node where
  | file (content : String)
  | dir
deriving DecidableEq, Repr

/-- A filesystem: an association list from paths to nodes. -/
abbrev Fs := List (FsPath × Node)

/-- Look up the node stored at a path, if any. -/
def Fs.lookup : Fs → FsPath → Option Node
  | [], _ => none
  | e :: rest, p => if e.1 = p then some e.2 else Fs.lookup rest p

/-- `Path.exists`: the path maps to some node. -/
def Fs.pathExists (fs : Fs) (p : FsPath) : Bool :=
  (Fs.lookup fs p).isSome

/-- `Path.is_file`: the path maps to a regular file. -/
def Fs.isFile (fs : Fs) (p : FsPath) : Bool :=
  match Fs.lookup fs p with
  | some (Node.file _) => true
  | _ => false

/-- `Path.is_dir`: the path maps to a directory. -/
def Fs.isDir (fs : Fs) (p : FsPath) : Bool :=
  match Fs.lookup fs p with
  | some Node.dir => true
  | _ => false

/-- Remove every entry stored at a path (`Path.unlink`). -/
def Fs.erase (fs : Fs) (p : FsPath) : Fs :=
  fs.filter (fun e => decide (e.1 ≠ p))

/-- Store a node at a path, replacing any previous entry. -/
def Fs.insert (fs : Fs) (p : FsPath) (n : Node) : Fs :=
  (p, n) :: Fs.erase fs p

/-- Errors raised by the filesystem helpers: `ValueError` for an invalid
directory (or a non-file match), and the errors `shutil.copy` can raise. -/
inductive FsError where
  | invalidDirectory
  | fileNotFound
  | isADirectory
deriving DecidableEq, Repr

/-- `get_expected_file_in_directory`: `directory / file.name`. -/
def get_expected_file_in_directory (file directory : FsPath) : FsPath :=
  directory ++ [pathName file]

/-- `is_file_in_directory`: raises `ValueError` when `directory` is not a
directory; otherwise reports whether `directory / file.name` exists and is
a regular file. -/
def is_file_in_directory (file directory : FsPath) (fs : Fs) : Except FsError Bool :=
  if Fs.isDir fs directory then
    let expected_file := get_expected_file_in_directory file directory
    Except.ok (Fs.pathExists fs expected_file && Fs.isFile fs expected_file)
  else
    Except.error FsError.invalidDirectory

/-- Model of `shutil.copy file directory`: copies the file into the
directory under its own name, overwriting an existing regular file;
fails if the source is not an existing regular file or the destination
path is a directory. -/
def shutil_copy (file directory : FsPath) (fs : Fs) : Except FsError Fs :=
  match Fs.lookup fs file with
  | some (Node.file c) =>
      let dst := directory ++ [pathName file]
      match Fs.lookup fs dst with
      | some Node.dir => Except.error FsError.isADirectory
      | _ => Except.ok (Fs.insert fs dst (Node.file c))
  | _ => Except.error FsError.fileNotFound

/-- `copy_file_to_directory`: no-op when the file is already in the
directory, otherwise `shutil.copy`; the `ValueError` from
`is_file_in_directory` propagates. -/
def copy_file_to_directory (file directory : FsPath) (fs : Fs) : Except FsError Fs :=
  match is_file_in_directory file directory fs with
  | Except.error e => Except.error e
  | Except.ok true => Except.ok fs
  | Except.ok false => shutil_copy file directory fs

/-- `delete_file_in_directory`: no-op when `directory / file.name` does not
exist; raises `ValueError` when it exists but is not a regular file;
otherwise unlinks it. -/
def delete_file_in_directory (file directory : FsPath) (fs : Fs) : Except FsError Fs :=
  let expected_file := get_expected_file_in_directory file directory
  if Fs.pathExists fs expected_file then
    if Fs.isFile fs expected_file then
      Except.ok (Fs.erase fs expected_file)
    else
      Except.error FsError.invalidDirectory
  else
    Except.ok fs

/-- The pager state of `CurrentImagesProvider`: the sorted image list and
the current index. -/
structure CurrentImagesProvider where
  images : List FsPath
  current : Nat
deriving DecidableEq, Repr

/-- `skim`: `current = max(0, min(current + number_of_images, len(images) - 1))`,
computed on integers as in Python. -/
def CurrentImagesProvider.skim (p : CurrentImagesProvider) (number_of_images : Int) :
    CurrentImagesProvider :=
  { p with
    current :=
      (max 0 (min ((p.current : Int) + number_of_images) ((p.images.length : Int) - 1))).toNat }

/-- `get`: returns up to `number_of_images` image paths, shifting the start
index left when the window would run past the end; the method assigns
nothing to `self`, so the state component of the result is the receiver. -/
def CurrentImagesProvider.get (p : CurrentImagesProvider) (number_of_images : Nat) :
    List FsPath × CurrentImagesProvider :=
  let n := if p.images.length < number_of_images then p.images.length else number_of_images
  let index := if p.current + n > p.images.length then p.images.length - n else p.current
  ((p.images.drop index).take n, p)

/-- The error of `progress` on an empty image list (Python's
`ZeroDivisionError`). -/
inductive PagerError where
  | divisionUndefined
deriving DecidableEq, Repr

/-- `progress`: `100 * (current + 1) / len(images)`, raising on division by
zero as Python does. -/
def CurrentImagesProvider.progress (p : CurrentImagesProvider) : Except PagerError ℚ :=
  if p.images.length = 0 then
    Except.error PagerError.divisionUndefined
  else
    Except.ok ((100 * ((p.current : ℚ) + 1)) / (p.images.length : ℚ))

/-- Lexicographic order on paths, comparing components by the string order. -/
def pathLe (a b : FsPath) : Prop := a = b ∨ List.Lex (· < ·) a b

theorem Fs.lookup_erase (fs : Fs) (p q : FsPath) :
    Fs.lookup (Fs.erase fs p) q = if q = p then none else Fs.lookup fs q := by
  induction fs with
  | nil => simp [Fs.erase, Fs.lookup]
  | cons e rest ih =>
    simp only [Fs.erase, List.filter_cons] at *
    split_ifs with h1 <;> simp only [Fs.lookup, ih] <;> split_ifs <;> simp_all

theorem Fs.lookup_insert (fs : Fs) (p q : FsPath) (n : Node) :
    Fs.lookup (Fs.insert fs p n) q = if q = p then some n else Fs.lookup fs q := by
  simp only [Fs.insert, Fs.lookup, Fs.lookup_erase]
  split_ifs <;> simp_all

theorem Fs.isDir_iff (fs : Fs) (p : FsPath) :
    Fs.isDir fs p = true ↔ Fs.lookup fs p = some Node.dir := by
  unfold Fs.isDir
  cases h : Fs.lookup fs p with
  | none => simp
  | some n => cases n <;> simp

theorem Fs.isFile_iff (fs : Fs) (p : FsPath) :
    Fs.isFile fs p = true ↔ ∃ c, Fs.lookup fs p = some (Node.file c) := by
  unfold Fs.isFile
  cases h : Fs.lookup fs p with
  | none => simp
  | some n => cases n <;> simp

theorem Fs.pathExists_and_isFile (fs : Fs) (p : FsPath) :
    (Fs.pathExists fs p && Fs.isFile fs p) = Fs.isFile fs p := by
  unfold Fs.pathExists Fs.isFile
  cases h : Fs.lookup fs p with
  | none => simp
  | some n => cases n <;> simp

theorem Fs.isFile_insert_self (fs : Fs) (p : FsPath) (c : String) :
    Fs.isFile (Fs.insert fs p (Node.file c)) p = true := by
  unfold Fs.isFile
  rw [Fs.lookup_insert, if_pos rfl]

/-- On a valid directory, `is_file_in_directory` reports exactly whether the
expected path is a regular file. -/
theorem is_file_in_directory_of_dir (file directory : FsPath) (fs : Fs)
    (hdir : Fs.isDir fs directory = true) :
    is_file_in_directory file directory fs =
      Except.ok (Fs.isFile fs (get_expected_file_in_directory file directory)) := by
  simp [is_file_in_directory, hdir, Fs.pathExists_and_isFile]

/-- `copy_file_to_directory` is a no-op when a same-named file is already
present in a valid directory. -/
theorem copy_present_noop (file directory : FsPath) (fs : Fs)
    (hdir : Fs.isDir fs directory = true)
    (hf : Fs.isFile fs (get_expected_file_in_directory file directory) = true) :
    copy_file_to_directory file directory fs = Except.ok fs := by
  unfold copy_file_to_directory
  rw [is_file_in_directory_of_dir file directory fs hdir, hf]

/-- After a successful `copy_file_to_directory`, the directory is still valid
and the expected path is a regular file. -/
theorem copy_ok_isFile (file directory : FsPath) (fs fs2 : Fs)
    (hcopy : copy_file_to_directory file directory fs = Except.ok fs2) :
    Fs.isDir fs2 directory = true ∧
    Fs.isFile fs2 (get_expected_file_in_directory file directory) = true := by
  have hdir : Fs.isDir fs directory = true := by
    by_contra hh
    rw [Bool.not_eq_true] at hh
    simp [copy_file_to_directory, is_file_in_directory, hh] at hcopy
  have hinsert : ∀ cont : String,
      fs2 = Fs.insert fs (directory ++ [pathName file]) (Node.file cont) →
      Fs.isDir fs2 directory = true ∧
      Fs.isFile fs2 (get_expected_file_in_directory file directory) = true := by
    intro cont h2
    subst h2
    constructor
    · rw [Fs.isDir_iff, Fs.lookup_insert,
        if_neg (fun hcontra => by simpa using congrArg List.length hcontra)]
      exact (Fs.isDir_iff fs directory).mp hdir
    · exact Fs.isFile_insert_self fs (directory ++ [pathName file]) cont
  cases hf : Fs.isFile fs (get_expected_file_in_directory file directory) with
  | true =>
    rw [copy_present_noop file directory fs hdir hf] at hcopy
    injection hcopy with h2
    subst h2
    exact ⟨hdir, hf⟩
  | false =>
    have hstep : copy_file_to_directory file directory fs = shutil_copy file directory fs := by
      unfold copy_file_to_directory
      rw [is_file_in_directory_of_dir file directory fs hdir, hf]
    rw [hstep] at hcopy
    unfold shutil_copy at hcopy
    cases hsrc : Fs.lookup fs file with
    | none => simp [hsrc] at hcopy
    | some n =>
      cases n with
      | dir => simp [hsrc] at hcopy
      | file cont =>
        simp only [hsrc] at hcopy
        cases hdst : Fs.lookup fs (directory ++ [pathName file]) with
        | none =>
          simp only [hdst, Except.ok.injEq] at hcopy
          exact hinsert cont hcopy.symm
        | some m =>
          cases m with
          | dir => simp [hdst] at hcopy
          | file c2 =>
            simp only [hdst, Except.ok.injEq] at hcopy
            exact hinsert cont hcopy.symm

/-- The list returned by `get`, as a slice of the image list whose start is
shifted left when the window would run past the end. -/
theorem get_fst_eq (imgs : List FsPath) (c k : Nat) :
    (CurrentImagesProvider.get ⟨imgs, c⟩ k).1 =
      (imgs.drop (if c + min k imgs.length ≤ imgs.length then c
        else imgs.length - min k imgs.length)).take (min k imgs.length) := by
  have hn : (if imgs.length < k then imgs.length else k) = min k imgs.length := by
    split <;> omega
  simp only [CurrentImagesProvider.get, hn]
  by_cases hck : c + min k imgs.length ≤ imgs.length
  · rw [if_pos hck, if_neg (by omega)]
  · rw [if_neg hck, if_pos (by omega)]

example :
    (CurrentImagesProvider.get ⟨[["a.jpg"], ["b.jpg"], ["c.jpg"]], 2⟩ 3).1 =
      [["a.jpg"], ["b.jpg"], ["c.jpg"]] := by decide

example :
    (CurrentImagesProvider.get ⟨[["a.jpg"], ["b.jpg"], ["c.jpg"]], 1⟩ 2).1 =
      [["b.jpg"], ["c.jpg"]] := by decide

example :
    (CurrentImagesProvider.skim ⟨[["a.jpg"], ["b.jpg"], ["c.jpg"]], 0⟩ (-5)).current = 0 := by
  decide

example :
    (CurrentImagesProvider.skim ⟨[["a.jpg"], ["b.jpg"], ["c.jpg"]], 0⟩ 7).current = 2 := by
  decide

example : (CurrentImagesProvider.skim ⟨[], 0⟩ 3).current = 0 := by decide

example : CurrentImagesProvider.progress ⟨[["a.jpg"], ["b.jpg"]], 0⟩ = Except.ok 50 := by
  simp [CurrentImagesProvider.progress]
  norm_num

example :
    is_file_in_directory ["photo.jpg"] ["dst"]
      [(["dst"], Node.dir), (["dst", "photo.jpg"], Node.file "x")] = Except.ok true := by
  decide

example :
    delete_file_in_directory ["photo.jpg"] ["dst"]
      [(["dst"], Node.dir), (["dst", "photo.jpg"], Node.file "x")] =
      Except.ok [(["dst"], Node.dir)] := by
  decide

example :
    copy_file_to_directory ["src", "photo.jpg"] ["dst"]
      [(["src"], Node.dir), (["src", "photo.jpg"], Node.file "x"), (["dst"], Node.dir)] =
      Except.ok
        [(["dst", "photo.jpg"], Node.file "x"),
         (["src"], Node.dir), (["src", "photo.jpg"], Node.file "x"), (["dst"], Node.dir)] := by
  decide

/-- C1: for a pager state with image list of length `N` and cursor
`c ∈ [0, max 0 (N-1)]`, and any requested count `k`, `get` returns exactly
`min k N` paths: a contiguous slice starting at `c` when `c + min k N ≤ N`
and at `N - min k N` otherwise, so the window never runs past index `N-1`;
if `k` exceeds `N` all images are returned; a window of a sorted list is
sorted; and on `[a.jpg, b.jpg, c.jpg]` with cursor 2, `get 3` returns all
three images. -/
theorem c1_window_shape (imgs : List FsPath) (c k : Nat)
    (hc : c ≤ max 0 (imgs.length - 1)) :
    ((CurrentImagesProvider.get ⟨imgs, c⟩ k).1).length = min k imgs.length ∧
    (CurrentImagesProvider.get ⟨imgs, c⟩ k).1 =
      (imgs.drop (if c + min k imgs.length ≤ imgs.length then c
        else imgs.length - min k imgs.length)).take (min k imgs.length) ∧
    (if c + min k imgs.length ≤ imgs.length then c
      else imgs.length - min k imgs.length) + min k imgs.length ≤ imgs.length ∧
    (imgs.length < k → (CurrentImagesProvider.get ⟨imgs, c⟩ k).1 = imgs) ∧
    (List.Sorted pathLe imgs → List.Sorted pathLe (CurrentImagesProvider.get ⟨imgs, c⟩ k).1) ∧
    (CurrentImagesProvider.get ⟨[["a.jpg"], ["b.jpg"], ["c.jpg"]], 2⟩ 3).1 =
      [["a.jpg"], ["b.jpg"], ["c.jpg"]] := by
  refine ⟨?_, get_fst_eq imgs c k, ?_, ?_, ?_, by decide⟩
  · rw [get_fst_eq, List.length_take, List.length_drop]
    split_ifs <;> omega
  · split_ifs <;> omega
  · intro hlt
    rw [get_fst_eq]
    have hmin : min k imgs.length = imgs.length := by omega
    rw [hmin]
    split_ifs with h
    · have hc0 : c = 0 := by omega
      simp [hc0]
    · simp
  · intro hsorted
    rw [get_fst_eq]
    exact hsorted.sublist ((List.take_sublist _ _).trans (List.drop_sublist _ _))

theorem c1_window_shape_witness :
    (2 ≤ max 0 (([[ "a.jpg" ], ["b.jpg"], ["c.jpg"]] : List FsPath).length - 1)) ∧
    ((CurrentImagesProvider.get ⟨[["a.jpg"], ["b.jpg"], ["c.jpg"]], 2⟩ 3).1).length =
      min 3 ([[ "a.jpg" ], ["b.jpg"], ["c.jpg"]] : List FsPath).length :=
  ⟨by decide, (c1_window_shape [["a.jpg"], ["b.jpg"], ["c.jpg"]] 2 3 (by decide)).1⟩

/-- C2: `progress` returns exactly `100 * (cursor + 1) / N` on a non-empty
image list, and fails with the division-undefined error on an empty one. -/
theorem c2_progress_formula (imgs : List FsPath) (c : Nat) :
    (imgs.length ≠ 0 →
      CurrentImagesProvider.progress ⟨imgs, c⟩ =
        Except.ok ((100 * ((c : ℚ) + 1)) / (imgs.length : ℚ))) ∧
    (imgs.length = 0 →
      CurrentImagesProvider.progress ⟨imgs, c⟩ =
        Except.error PagerError.divisionUndefined) := by
  constructor <;> intro h <;> simp [CurrentImagesProvider.progress, h]

theorem c2_progress_formula_witness :
    CurrentImagesProvider.progress ⟨[["a.jpg"], ["b.jpg"]], 0⟩ =
      Except.ok ((100 * (((0 : Nat) : ℚ) + 1)) /
        ((([["a.jpg"], ["b.jpg"]] : List FsPath).length : ℚ))) :=
  (c2_progress_formula [["a.jpg"], ["b.jpg"]] 0).1 (by decide)

/-- C3: `skim n` sets the cursor to `clamp(cursor + n, 0, N-1)`; hence the
cursor stays in `[0, N-1]` when `N > 0`, and is clamped to 0 on an empty
image set, so empty-set navigation is a no-op rather than an error. -/
theorem c3_advance_clamp (imgs : List FsPath) (c : Nat) (n : Int) :
    (((CurrentImagesProvider.skim ⟨imgs, c⟩ n).current : Int) =
      max 0 (min ((c : Int) + n) ((imgs.length : Int) - 1))) ∧
    (0 < imgs.length → (CurrentImagesProvider.skim ⟨imgs, c⟩ n).current ≤ imgs.length - 1) ∧
    (imgs.length = 0 → (CurrentImagesProvider.skim ⟨imgs, c⟩ n).current = 0) := by
  have h1 : ((CurrentImagesProvider.skim ⟨imgs, c⟩ n).current : Int) =
      max 0 (min ((c : Int) + n) ((imgs.length : Int) - 1)) := by
    simp only [CurrentImagesProvider.skim]
    exact Int.toNat_of_nonneg (le_max_left 0 _)
  refine ⟨h1, fun hpos => ?_, fun h0 => ?_⟩
  · omega
  · rw [h0] at h1
    omega

theorem c3_advance_clamp_witness :
    (CurrentImagesProvider.skim ⟨[["a.jpg"], ["b.jpg"], ["c.jpg"]], 0⟩ 7).current ≤
      ([[ "a.jpg" ], ["b.jpg"], ["c.jpg"]] : List FsPath).length - 1 :=
  (c3_advance_clamp [["a.jpg"], ["b.jpg"], ["c.jpg"]] 0 7).2.1 (by decide)

/-- C8: `get` is read-only on the pager state: it leaves both the cursor and
the image list unchanged. -/
theorem c8_window_readonly (p : CurrentImagesProvider) (k : Nat) :
    (CurrentImagesProvider.get p k).2.current = p.current ∧
    (CurrentImagesProvider.get p k).2.images = p.images :=
  ⟨rfl, rfl⟩

theorem Fs.isFile_eq_false_of_not_pathExists (fs : Fs) (p : FsPath)
    (h : Fs.pathExists fs p = false) : Fs.isFile fs p = false := by
  unfold Fs.pathExists at h
  unfold Fs.isFile
  cases hl : Fs.lookup fs p with
  | none => rfl
  | some n => rw [hl] at h; simp at h

theorem Fs.isFile_erase_self (fs : Fs) (p : FsPath) :
    Fs.isFile (Fs.erase fs p) p = false := by
  unfold Fs.isFile
  rw [Fs.lookup_erase, if_pos rfl]

/-- C4: `delete` is a no-op when no same-named path exists in the directory;
whenever it returns normally, a subsequent `exists` check on a valid
directory reports the file gone; and it raises exactly when the matching
path exists but is not a regular file. -/
theorem c4_delete_spec (file directory : FsPath) (fs : Fs) :
    (Fs.pathExists fs (get_expected_file_in_directory file directory) = false →
      delete_file_in_directory file directory fs = Except.ok fs) ∧
    (∀ fs2, delete_file_in_directory file directory fs = Except.ok fs2 →
      Fs.isDir fs2 directory = true →
      is_file_in_directory file directory fs2 = Except.ok false) ∧
    ((∃ e, delete_file_in_directory file directory fs = Except.error e) ↔
      (Fs.pathExists fs (get_expected_file_in_directory file directory) = true ∧
       Fs.isFile fs (get_expected_file_in_directory file directory) = false)) := by
  refine ⟨?_, ?_, ?_⟩
  · intro hne
    simp [delete_file_in_directory, hne]
  · intro fs2 hok hdir2
    rw [is_file_in_directory_of_dir file directory fs2 hdir2]
    unfold delete_file_in_directory at hok
    cases hex : Fs.pathExists fs (get_expected_file_in_directory file directory) with
    | false =>
      simp only [hex, Bool.false_eq_true, if_false] at hok
      injection hok with h2
      subst h2
      rw [Fs.isFile_eq_false_of_not_pathExists fs _ hex]
    | true =>
      cases hf : Fs.isFile fs (get_expected_file_in_directory file directory) with
      | false => simp [hex, hf] at hok
      | true =>
        simp only [hex, hf, if_true] at hok
        injection hok with h2
        subst h2
        rw [Fs.isFile_erase_self]
  · constructor
    · rintro ⟨err, herr⟩
      unfold delete_file_in_directory at herr
      cases hex : Fs.pathExists fs (get_expected_file_in_directory file directory) with
      | false => simp [hex] at herr
      | true =>
        cases hf : Fs.isFile fs (get_expected_file_in_directory file directory) with
        | false => exact ⟨rfl, rfl⟩
        | true => simp [hex, hf] at herr
    · rintro ⟨hex, hnf⟩
      refine ⟨FsError.invalidDirectory, ?_⟩
      simp [delete_file_in_directory, hex, hnf]

theorem c4_delete_spec_witness :
    is_file_in_directory ["photo.jpg"] ["dst"] [(["dst"], Node.dir)] = Except.ok false :=
  (c4_delete_spec ["photo.jpg"] ["dst"]
      [(["dst"], Node.dir), (["dst", "photo.jpg"], Node.file "x")]).2.1
    [(["dst"], Node.dir)] (by decide) (by decide)

/-- C5: `exists` returns true iff a same-named regular file is in the
directory, and raises the invalid-directory error iff the directory
argument is not an existing directory. -/
theorem c5_exists_spec (file directory : FsPath) (fs : Fs) :
    (is_file_in_directory file directory fs = Except.error FsError.invalidDirectory ↔
      Fs.isDir fs directory = false) ∧
    (Fs.isDir fs directory = true →
      (is_file_in_directory file directory fs = Except.ok true ↔
        Fs.isFile fs (get_expected_file_in_directory file directory) = true)) := by
  cases hd : Fs.isDir fs directory with
  | false =>
    constructor
    · simp [is_file_in_directory, hd]
    · intro h
      simp at h
  | true =>
    constructor
    · rw [is_file_in_directory_of_dir file directory fs hd]
      simp [hd]
    · intro _
      rw [is_file_in_directory_of_dir file directory fs hd]
      constructor
      · intro h
        injection h
      · intro h
        rw [h]

theorem c5_exists_spec_witness :
    is_file_in_directory ["photo.jpg"] ["dst"]
      [(["dst"], Node.dir), (["dst", "photo.jpg"], Node.file "x")] = Except.ok true :=
  ((c5_exists_spec ["photo.jpg"] ["dst"]
      [(["dst"], Node.dir), (["dst", "photo.jpg"], Node.file "x")]).2 (by decide)).mpr
    (by decide)

/-- C6: a successful `copy` into a directory makes a subsequent `exists`
check for the file in that directory return true. -/
theorem c6_copy_then_exists (file directory : FsPath) (fs fs2 : Fs)
    (hcopy : copy_file_to_directory file directory fs = Except.ok fs2) :
    is_file_in_directory file directory fs2 = Except.ok true := by
  obtain ⟨hdir2, hfile2⟩ := copy_ok_isFile file directory fs fs2 hcopy
  rw [is_file_in_directory_of_dir file directory fs2 hdir2, hfile2]

theorem c6_copy_then_exists_witness :
    is_file_in_directory ["src", "photo.jpg"] ["dst"]
      [( ["dst", "photo.jpg"], Node.file "x"), (["src"], Node.dir),
       (["src", "photo.jpg"], Node.file "x"), (["dst"], Node.dir)] = Except.ok true :=
  c6_copy_then_exists ["src", "photo.jpg"] ["dst"]
    [(["src"], Node.dir), (["src", "photo.jpg"], Node.file "x"), (["dst"], Node.dir)]
    [( ["dst", "photo.jpg"], Node.file "x"), (["src"], Node.dir),
     (["src", "photo.jpg"], Node.file "x"), (["dst"], Node.dir)] (by decide)

/-- C7: `copy` is idempotent: it is a no-op when a same-named file is
already present in a valid directory, and a second call after a successful
one is a no-op, so the presence state equals that after one call and no
error is raised. -/
theorem c7_copy_idempotent (file directory : FsPath) (fs : Fs) :
    (Fs.isDir fs directory = true →
      Fs.isFile fs (get_expected_file_in_directory file directory) = true →
      copy_file_to_directory file directory fs = Except.ok fs) ∧
    (∀ fs2, copy_file_to_directory file directory fs = Except.ok fs2 →
      copy_file_to_directory file directory fs2 = Except.ok fs2) := by
  refine ⟨copy_present_noop file directory fs, ?_⟩
  intro fs2 hcopy
  obtain ⟨hdir2, hfile2⟩ := copy_ok_isFile file directory fs fs2 hcopy
  exact copy_present_noop file directory fs2 hdir2 hfile2

theorem c7_copy_idempotent_witness :
    copy_file_to_directory ["photo.jpg"] ["dst"]
      [(["dst"], Node.dir), (["dst", "photo.jpg"], Node.file "x")] =
      Except.ok [(["dst"], Node.dir), (["dst", "photo.jpg"], Node.file "x")] :=
  (c7_copy_idempotent ["photo.jpg"] ["dst"]
      [(["dst"], Node.dir), (["dst", "photo.jpg"], Node.file "x")]).1 (by decide) (by decide)

/-- C9: when the same-named path in a valid directory exists but is not a
regular file, `exists` returns false, neither true nor an error. -/
theorem c9_exists_false_on_nonfile (file directory : FsPath) (fs : Fs)
    (hdir : Fs.isDir fs directory = true)
    (hex : Fs.pathExists fs (get_expected_file_in_directory file directory) = true)
    (hnf : Fs.isFile fs (get_expected_file_in_directory file directory) = false) :
    is_file_in_directory file directory fs = Except.ok false := by
  rw [is_file_in_directory_of_dir file directory fs hdir, hnf]

theorem c9_exists_false_on_nonfile_witness :
    is_file_in_directory ["photo.jpg"] ["dst"]
      [(["dst"], Node.dir), (["dst", "photo.jpg"], Node.dir)] = Except.ok false :=
  c9_exists_false_on_nonfile ["photo.jpg"] ["dst"]
    [(["dst"], Node.dir), (["dst", "photo.jpg"], Node.dir)]
    (by decide) (by decide) (by decide)

/-- C10: `delete` never validates the directory argument: when the directory
is invalid and the expected path is absent, `delete` silently no-ops while
`exists` and `copy` both raise the invalid-directory error. -/
theorem c10_delete_skips_validation (file directory : FsPath) (fs : Fs)
    (hdir : Fs.isDir fs directory = false)
    (hne : Fs.pathExists fs (get_expected_file_in_directory file directory) = false) :
    delete_file_in_directory file directory fs = Except.ok fs ∧
    is_file_in_directory file directory fs = Except.error FsError.invalidDirectory ∧
    copy_file_to_directory file directory fs = Except.error FsError.invalidDirectory := by
  refine ⟨?_, ?_, ?_⟩
  · simp [delete_file_in_directory, hne]
  · simp [is_file_in_directory, hdir]
  · simp [copy_file_to_directory, is_file_in_directory, hdir]

theorem c10_delete_skips_validation_witness :
    delete_file_in_directory ["photo.jpg"] ["dst"] [] = Except.ok [] ∧
    is_file_in_directory ["photo.jpg"] ["dst"] [] = Except.error FsError.invalidDirectory ∧
    copy_file_to_directory ["photo.jpg"] ["dst"] [] = Except.error FsError.invalidDirectory :=
  c10_delete_skips_validation ["photo.jpg"] ["dst"] [] (by decide) (by decide)
